import Mathlib

/-!
Shallow embedding of the taxonomic-distance engine
(`src/taxon.py` and `src/dist_pwy_rxn.py`).

Python scalars that flow through the program (taxonomic identifiers,
names) are modelled by `PyVal`: the code compares identifiers both with
string literals and with the integer literal `1`, and Python's `==`
across `str`/`int` is `False`, so the embedding keeps the two kinds
distinct.  Python `None`-able parameters are `Option`s, Python
truthiness is made explicit, exceptions become explicit result types,
and the external Entrez/NCBI service is a parameter (`EntrezApi`) of
every operation that calls it.
-/

deriving instance DecidableEq for Except

namespace TaxoDist

/-- A Python scalar value: a string or an integer.  Python's `==` on
these is structural within a kind and `False` across kinds, which is
exactly `DecidableEq` on this type. -/
inductive PyVal where
  | str : String → PyVal
  | int : Int → PyVal
deriving DecidableEq

/-- Python truthiness of a scalar: the empty string and `0` are falsy. -/
def PyVal.truthy : PyVal → Bool
  | .str s => s ≠ ""
  | .int n => n ≠ 0

/-- Python truthiness of an optional scalar argument (`None` is falsy). -/
def optTruthy : Option PyVal → Bool
  | Option.none => false
  | some v => v.truthy

/-- Python truthiness of an optional list argument (`None` and `[]` are
falsy). -/
def optListTruthy : Option (List PyVal) → Bool
  | Option.none => false
  | some l => l ≠ []

/-- The `Taxon` object of `src/taxon.py`.  `dist_to_root` is set only by
the external-resolution path (`__init__` lines 97-101); a taxon built
from a full persisted field set (lines 62-68) lacks the attribute, which
is modelled by `Option.none`. -/
structure Taxon where
  taxid : PyVal
  scientific_name : PyVal
  lineage_taxa_name : List PyVal
  lineage_taxa_id : List PyVal
  parent_taxid : PyVal
  dist_to_root : Option Int
deriving DecidableEq

/-- The element-wise common prefix of two lineage-id lists.  This is the
`common_tax_id` accumulation of `taxon.py` lines 135-154: both branches
of the `if len(...) <= len(...)` walk index `i` upward over the shorter
list and stop at the first mismatch, so a single recursion over both
lists at once captures either branch. -/
def common_tax_id : List PyVal → List PyVal → List PyVal
  | a :: as, b :: bs => if a = b then a :: common_tax_id as bs else []
  | _, _ => []

/-- `Taxon.get_distance_between_two_taxa` (`taxon.py` lines 117-170).
The root test of line 132 is Python `anothertaxon.taxid == 1`, an
equality with the integer `1`. -/
def Taxon.get_distance_between_two_taxa (self anothertaxon : Taxon)
    (penalty_price : Int) : Int :=
  if anothertaxon.taxid = PyVal.int 1 then
    (self.lineage_taxa_id.length : Int)
  else
    let common := common_tax_id self.lineage_taxa_id anothertaxon.lineage_taxa_id
    let up_distance : Int :=
      (self.lineage_taxa_id.length : Int) - (common.length : Int)
    let down_distance : Int :=
      if up_distance ≠ 0 then
        (anothertaxon.lineage_taxa_id.length : Int) - (common.length : Int)
      else 0
    up_distance + down_distance * penalty_price

/-! Concrete taxa used as inputs of witnesses and counterexamples. -/

/-- A query taxon of depth 2 whose lineage ids are strings, as produced
by every construction path of the program (Entrez returns string ids,
and the persisted cache stores strings). -/
def taxonQ : Taxon :=
  { taxid := PyVal.str "2", scientific_name := PyVal.str "Bacteria",
    lineage_taxa_name := [PyVal.str "cellular organisms", PyVal.str "Bacteria"],
    lineage_taxa_id := [PyVal.str "131567", PyVal.str "2"],
    parent_taxid := PyVal.str "131567", dist_to_root := some 2 }

/-- The tree root as the program actually represents it: its taxid is
the STRING "1" (all taxids in the program are strings). -/
def taxonRootStr : Taxon :=
  { taxid := PyVal.str "1", scientific_name := PyVal.str "root",
    lineage_taxa_name := [PyVal.str "root"],
    lineage_taxa_id := [PyVal.str "1"],
    parent_taxid := PyVal.str "1", dist_to_root := some 1 }

/-- The tree root with an INTEGER taxid `1`, the only form that triggers
the root branch of the distance function. -/
def taxonRootInt : Taxon :=
  { taxid := PyVal.int 1, scientific_name := PyVal.str "root",
    lineage_taxa_name := [PyVal.str "root"],
    lineage_taxa_id := [PyVal.int 1],
    parent_taxid := PyVal.int 1, dist_to_root := some 0 }

/-- Sibling of `taxonQsib` under the same parent. -/
def taxonQsib : Taxon :=
  { taxid := PyVal.str "C", scientific_name := PyVal.str "C",
    lineage_taxa_name := [PyVal.str "A", PyVal.str "B", PyVal.str "C"],
    lineage_taxa_id := [PyVal.str "A", PyVal.str "B", PyVal.str "C"],
    parent_taxid := PyVal.str "B", dist_to_root := some 3 }

/-- Sibling of `taxonQsib` differing only in the last lineage element. -/
def taxonTsib : Taxon :=
  { taxid := PyVal.str "D", scientific_name := PyVal.str "D",
    lineage_taxa_name := [PyVal.str "A", PyVal.str "B", PyVal.str "D"],
    lineage_taxa_id := [PyVal.str "A", PyVal.str "B", PyVal.str "D"],
    parent_taxid := PyVal.str "B", dist_to_root := some 3 }

/-! The external NCBI/Entrez directory, and the `Taxon` constructor. -/

/-- The record returned by `Entrez.efetch`/`Entrez.read` for one taxon:
the fields of `entry` that `taxon.py` reads.  `lineageEx` is the
`LineageEx` id chain, absent for certain top-level nodes (the `KeyError`
branch of line 95). -/
structure EntrezEntry where
  scientificName : PyVal
  lineage : String
  parentTaxId : PyVal
  lineageEx : Option (List PyVal)
deriving DecidableEq

/-- The external directory service, as an oracle: `efetch` returns the
record for an identifier (`Option.none` models the `TypeError`,
`IndexError` and `HTTPError` of lines 82-87), and `esearch` resolves a
scientific name to an identifier (`Option.none` models an empty
`IdList`, lines 109-115). -/
structure EntrezApi where
  efetch : PyVal → Option EntrezEntry
  esearch : PyVal → Option PyVal

/-- Python's `s.split('; ')` on the character list of `s`, accumulating
the current piece in reverse.  Scans left to right; the two-character
separator is consumed greedily and never overlaps itself. -/
def splitSemiAux : List Char → List Char → List (List Char)
  | [], acc => [acc.reverse]
  | ';' :: ' ' :: rest, acc => acc.reverse :: splitSemiAux rest []
  | c :: rest, acc => splitSemiAux rest (c :: acc)

/-- Python's `s.split('; ')`, used on the `Lineage` field (line 89). -/
def split_on_semispace (s : String) : List String :=
  (splitSemiAux s.toList []).map (fun l => String.mk l)

/-- Python's `s.strip(chars)`: removes LEADING AND TRAILING characters
drawn from the character SET of `chars` (not the substring `chars`). -/
def stripChars (s : String) (chars : String) : String :=
  String.mk (((s.toList.dropWhile (fun c => chars.toList.contains c)).reverse.dropWhile
      (fun c => chars.toList.contains c)).reverse)

/-- Outcome of `Taxon.__init__`: a built object, or one of the two
exceptions `TaxonInvalidInput` and `TaxonNotFound(taxdata)`. -/
inductive InitResult where
  | built : Taxon → InitResult
  | invalidInput : InitResult
  | notFound : PyVal → InitResult
deriving DecidableEq

/-- Lines 82-101 of `taxon.py`: fetch the record for `tid` and populate
the object; any fetch failure raises `TaxonNotFound(tid)`.  Note line 98
compares the (string) taxid with the integer `1`. -/
def Taxon.fetchBuild (api : EntrezApi) (tid : PyVal) : InitResult :=
  match api.efetch tid with
  | Option.none => .notFound tid
  | some entry =>
    let sci := entry.scientificName
    let lin_names := (split_on_semispace entry.lineage).map PyVal.str ++ [sci]
    let lin_ids :=
      match entry.lineageEx with
      | some xs => xs ++ [tid]
      | Option.none => [tid]
    .built { taxid := tid, scientific_name := sci,
             lineage_taxa_name := lin_names, lineage_taxa_id := lin_ids,
             parent_taxid := entry.parentTaxId,
             dist_to_root :=
               some (if tid = PyVal.int 1 then 0 else (lin_ids.length : Int)) }

/-- The `else` branch of `Taxon.__init__` (lines 69-101): resolution via
the external directory.  With neither a truthy taxid nor a truthy name,
`TaxonInvalidInput` is raised; with no truthy taxid the name is first
resolved through `esearch` (`TaxonNotFound(name)` on an empty result);
then the record for the id is fetched.  The `getD` defaults are
unreachable: the guards force the matching argument to be `some`. -/
def Taxon.initFetch (api : EntrezApi) (taxid scientific_name : Option PyVal) :
    InitResult :=
  if !(optTruthy taxid) && !(optTruthy scientific_name) then
    .invalidInput
  else if !(optTruthy taxid) then
    match api.esearch (scientific_name.getD (PyVal.str "")) with
    | Option.none => .notFound (scientific_name.getD (PyVal.str ""))
    | some tid => Taxon.fetchBuild api tid
  else
    Taxon.fetchBuild api (taxid.getD (PyVal.str ""))

/-- `Taxon.__init__` (`taxon.py` lines 45-101).  The first branch (line
62) takes the full persisted field set when ALL five supplied fields are
truthy, in the source's order `taxid and scientific_name and
lineage_taxa_name and parent_taxid and lineage_taxa_id`; otherwise the
constructor falls through to external resolution.  The `getD` defaults
are unreachable under the truthiness guard. -/
def Taxon.init (api : EntrezApi) (taxid scientific_name : Option PyVal)
    (lineage_taxa_name lineage_taxa_id : Option (List PyVal))
    (parent_taxid : Option PyVal) : InitResult :=
  if optTruthy taxid && optTruthy scientific_name
      && optListTruthy lineage_taxa_name && optTruthy parent_taxid
      && optListTruthy lineage_taxa_id then
    .built { taxid := taxid.getD (PyVal.str ""),
             scientific_name := scientific_name.getD (PyVal.str ""),
             lineage_taxa_name := lineage_taxa_name.getD [],
             lineage_taxa_id := lineage_taxa_id.getD [],
             parent_taxid := parent_taxid.getD (PyVal.str ""),
             dist_to_root := Option.none }
  else
    Taxon.initFetch api taxid scientific_name

/-- A directory oracle that finds nothing. -/
def apiEmpty : EntrezApi :=
  { efetch := fun _ => Option.none, esearch := fun _ => Option.none }

/-! Common-prefix helper lemmas. -/

lemma common_tax_id_self_append (l r : List PyVal) :
    common_tax_id l (l ++ r) = l := by
  induction l with
  | nil => cases r <;> rfl
  | cons a as ih => simp [common_tax_id, ih]

lemma common_tax_id_append_self (l r : List PyVal) :
    common_tax_id (l ++ r) l = l := by
  induction l with
  | nil => cases r <;> rfl
  | cons a as ih => simp [common_tax_id, ih]

lemma common_tax_id_sibling (l : List PyVal) (c d : PyVal) (h : c ≠ d) :
    common_tax_id (l ++ [c]) (l ++ [d]) = l := by
  induction l with
  | nil => simp [common_tax_id, h]
  | cons a as ih => simp [common_tax_id, ih]

/-- Arithmetic form of the non-root branch of the distance function. -/
lemma get_distance_eq (q t : Taxon) (p : Int) (h : t.taxid ≠ PyVal.int 1) :
    Taxon.get_distance_between_two_taxa q t p =
      ((q.lineage_taxa_id.length : Int)
          - ((common_tax_id q.lineage_taxa_id t.lineage_taxa_id).length : Int))
        + (if (q.lineage_taxa_id.length : Int)
              - ((common_tax_id q.lineage_taxa_id t.lineage_taxa_id).length : Int) ≠ 0
           then (t.lineage_taxa_id.length : Int)
              - ((common_tax_id q.lineage_taxa_id t.lineage_taxa_id).length : Int)
           else 0) * p := by
  unfold Taxon.get_distance_between_two_taxa
  rw [if_neg h]

/-! C2: distance to the tree root. -/

/-- C2 counterexample: the claim fails on the code for a target whose
taxid denotes the tree root as the STRING "1" (the form every taxid in
the program takes): the root branch of line 132 compares with the
integer `1`, does not fire, and the general branch returns 22 instead of
the query depth 2. -/
theorem C2_root_distance_counterexample :
    taxonRootStr.taxid = PyVal.str "1" ∧
    Taxon.get_distance_between_two_taxa taxonQ taxonRootStr 20
      ≠ (taxonQ.lineage_taxa_id.length : Int) := by
  constructor
  · rfl
  · decide

/-- C2 (amended): for every query Q and every target whose taxid is the
INTEGER 1, the distance is `len(Q.lineage_taxa_id)` for every penalty. -/
theorem C2_root_distance_is_query_depth (q t : Taxon) (penalty : Int)
    (h : t.taxid = PyVal.int 1) :
    Taxon.get_distance_between_two_taxa q t penalty
      = (q.lineage_taxa_id.length : Int) := by
  unfold Taxon.get_distance_between_two_taxa
  rw [if_pos h]

/-- C2 witness: the amended theorem at the concrete query `taxonQ` and
the integer-taxid root, penalty 20. -/
theorem C2_root_distance_witness :
    Taxon.get_distance_between_two_taxa taxonQ taxonRootInt 20 = 2 := by
  have h := C2_root_distance_is_query_depth taxonQ taxonRootInt 20 rfl
  rw [h]; decide

/-! C6: sibling taxa. -/

/-- C6: two non-root taxa whose lineage-id lists agree on all but the
last element (siblings under the same immediate parent) are at distance
`1 + 1*penalty`: one step up, one penalised step down. -/
theorem C6_sibling_distance (q t : Taxon) (penalty : Int) (l : List PyVal)
    (c d : PyVal) (hroot : t.taxid ≠ PyVal.int 1)
    (hq : q.lineage_taxa_id = l ++ [c]) (ht : t.lineage_taxa_id = l ++ [d])
    (hcd : c ≠ d) :
    Taxon.get_distance_between_two_taxa q t penalty = 1 + 1 * penalty := by
  rw [get_distance_eq q t penalty hroot, hq, ht,
    common_tax_id_sibling l c d hcd]
  have h1 : ((l ++ [c]).length : Int) - (l.length : Int) = 1 := by simp
  have h2 : ((l ++ [d]).length : Int) - (l.length : Int) = 1 := by simp
  rw [h1, h2, if_pos (by norm_num)]

/-- C6 witness: query lineage `[A, B, C]`, target lineage `[A, B, D]`,
penalty 20: distance 21. -/
theorem C6_sibling_distance_witness :
    Taxon.get_distance_between_two_taxa taxonQsib taxonTsib 20 = 21 := by
  have h := C6_sibling_distance taxonQsib taxonTsib 20
    [PyVal.str "A", PyVal.str "B"] (PyVal.str "C") (PyVal.str "D")
    (by decide) rfl rfl (by decide)
  omega

/-! C7: ancestor/descendant taxa. -/

/-- C7: for two non-root taxa where one lineage-id list is a prefix of
the other (one taxon an ancestor of the other, self included), the
distance is the up-distance `len(query.lineage_taxa_id) - c` where `c`
is the common-prefix length, the down-distance is 0, and the result does
not depend on the penalty (the right-hand side does not mention it). -/
theorem C7_ancestor_distance (q t : Taxon) (penalty : Int)
    (hroot : t.taxid ≠ PyVal.int 1)
    (hpre : q.lineage_taxa_id <+: t.lineage_taxa_id ∨
            t.lineage_taxa_id <+: q.lineage_taxa_id) :
    Taxon.get_distance_between_two_taxa q t penalty
      = (q.lineage_taxa_id.length : Int)
        - ((common_tax_id q.lineage_taxa_id t.lineage_taxa_id).length : Int) := by
  rw [get_distance_eq q t penalty hroot]
  rcases hpre with ⟨r, hr⟩ | ⟨r, hr⟩
  · rw [← hr, common_tax_id_self_append]
    simp
  · rw [← hr, common_tax_id_append_self]
    simp

/-- C7 witness: a fully resolved taxon against itself (its lineage is a
prefix of itself): distance 0, as the common prefix is the whole
lineage. -/
theorem C7_ancestor_distance_witness :
    Taxon.get_distance_between_two_taxa taxonQsib taxonQsib 20 = 0 := by
  have h := C7_ancestor_distance taxonQsib taxonQsib 20 (by decide)
    (Or.inl ⟨[], by simp⟩)
  rw [h]; decide

/-! Constructor lemmas. -/

lemma fetchBuild_ne_invalid (api : EntrezApi) (tid : PyVal) :
    Taxon.fetchBuild api tid ≠ InitResult.invalidInput := by
  unfold Taxon.fetchBuild
  cases api.efetch tid <;> simp

lemma initFetch_invalid_iff (api : EntrezApi) (t sn : Option PyVal) :
    Taxon.initFetch api t sn = InitResult.invalidInput
      ↔ (optTruthy t = false ∧ optTruthy sn = false) := by
  unfold Taxon.initFetch
  cases h1 : optTruthy t with
  | true => simp [fetchBuild_ne_invalid]
  | false =>
    cases h2 : optTruthy sn with
    | true =>
      cases h3 : api.esearch (sn.getD (PyVal.str "")) <;>
        simp [fetchBuild_ne_invalid]
    | false => simp

/-! C8: neither identifier nor name. -/

/-- C8: requesting construction with neither a taxid nor a scientific
name (and no full persisted field set) raises `TaxonInvalidInput`,
whatever the other arguments and the state of the directory. -/
theorem C8_no_id_no_name_invalid (api : EntrezApi)
    (ln li : Option (List PyVal)) (pt : Option PyVal) :
    Taxon.init api Option.none Option.none ln li pt
      = InitResult.invalidInput := by
  unfold Taxon.init Taxon.initFetch
  simp [optTruthy]

/-! C10: the full-field gate of the constructor. -/

/-- C10: the full-persisted-field branch of `Taxon.__init__` is taken
exactly when all five supplied fields are truthy, copying them verbatim;
when any is `None`/empty the constructor silently falls through to
external resolution, and the only way that fall-through raises
`TaxonInvalidInput` is that taxid and scientific name are BOTH falsy. -/
theorem C10_full_field_gate (api : EntrezApi) (t sn : Option PyVal)
    (ln li : Option (List PyVal)) (pt : Option PyVal) :
    ((optTruthy t && optTruthy sn && optListTruthy ln && optTruthy pt
        && optListTruthy li) = true →
      Taxon.init api t sn ln li pt
        = InitResult.built
            { taxid := t.getD (PyVal.str ""),
              scientific_name := sn.getD (PyVal.str ""),
              lineage_taxa_name := ln.getD [], lineage_taxa_id := li.getD [],
              parent_taxid := pt.getD (PyVal.str ""),
              dist_to_root := Option.none }) ∧
    ((optTruthy t && optTruthy sn && optListTruthy ln && optTruthy pt
        && optListTruthy li) = false →
      Taxon.init api t sn ln li pt = Taxon.initFetch api t sn ∧
      (Taxon.init api t sn ln li pt = InitResult.invalidInput
        ↔ (optTruthy t = false ∧ optTruthy sn = false))) := by
  constructor
  · intro h
    unfold Taxon.init
    rw [if_pos h]
  · intro h
    unfold Taxon.init
    rw [if_neg (by simp [h])]
    exact ⟨rfl, initFetch_invalid_iff api t sn⟩

/-- C10 witness: the gate at two concrete inputs: an all-truthy field
set is copied verbatim, and a set whose lineage-id list is empty falls
through (a truthy taxid prevents `TaxonInvalidInput`). -/
theorem C10_full_field_gate_witness :
    Taxon.init apiEmpty (some (PyVal.str "2")) (some (PyVal.str "Bacteria"))
        (some [PyVal.str "Bacteria"])
        (some [PyVal.str "131567", PyVal.str "2"]) (some (PyVal.str "131567"))
      = InitResult.built
          { taxid := PyVal.str "2",
            scientific_name := PyVal.str "Bacteria",
            lineage_taxa_name := [PyVal.str "Bacteria"],
            lineage_taxa_id := [PyVal.str "131567", PyVal.str "2"],
            parent_taxid := PyVal.str "131567",
            dist_to_root := Option.none } ∧
    (Taxon.init apiEmpty (some (PyVal.str "7")) Option.none Option.none
        (some ([] : List PyVal)) Option.none = InitResult.invalidInput
      ↔ (optTruthy (some (PyVal.str "7")) = false
          ∧ optTruthy Option.none = false)) :=
  ⟨(C10_full_field_gate apiEmpty (some (PyVal.str "2"))
      (some (PyVal.str "Bacteria")) (some [PyVal.str "Bacteria"])
      (some [PyVal.str "131567", PyVal.str "2"])
      (some (PyVal.str "131567"))).1 (by decide),
   ((C10_full_field_gate apiEmpty (some (PyVal.str "7")) Option.none
      Option.none (some ([] : List PyVal)) Option.none).2 (by decide)).2⟩

/-! `dist_pwy_rxn.py`: bulk resolution of a label set. -/

/-- An exception escaping a `dist_pwy_rxn.py` function uncaught. -/
inductive PyErr where
  | invalidInput : PyErr
  | notFound : PyVal → PyErr
deriving DecidableEq

/-- `turn_taxa_into_taxonomic_info` (`dist_pwy_rxn.py` lines 67-87).
Each label is stripped with Python's `strip('TAX-')` and resolved by
taxid; the UNSTRIPPED label keys the result.  Only `TaxonNotFound` is
caught (the label is skipped); a `TaxonInvalidInput` would escape, which
`Except.error` models.  The 0.35 s sleep has no observable effect here.
The input set is modelled as a list in iteration order. -/
def turn_taxa_into_taxonomic_info (api : EntrezApi)
    (set_of_taxa : List String) : Except PyErr (List (String × Taxon)) :=
  match set_of_taxa with
  | [] => Except.ok []
  | elem :: rest =>
    let tax_number := stripChars elem "TAX-"
    match Taxon.init api (some (PyVal.str tax_number)) Option.none
        Option.none Option.none Option.none with
    | .built taxon =>
      (turn_taxa_into_taxonomic_info api rest).map
        (fun m => (elem, taxon) :: m)
    | .notFound _ => turn_taxa_into_taxonomic_info api rest
    | .invalidInput => Except.error PyErr.invalidInput

/-! C5: NotFound failures are skipped, successes all kept. -/

/-- C5: when no label triggers `TaxonInvalidInput`, bulk resolution
never aborts: it returns exactly one entry per label whose resolution
succeeded, keyed by the original label, and every label whose resolution
failed with `TaxonNotFound` is silently absent. -/
theorem C5_notfound_skipped (api : EntrezApi) (labels : List String)
    (h : ∀ l ∈ labels,
      Taxon.init api (some (PyVal.str (stripChars l "TAX-"))) Option.none
          Option.none Option.none Option.none ≠ InitResult.invalidInput) :
    turn_taxa_into_taxonomic_info api labels
      = Except.ok (labels.filterMap (fun l =>
          match Taxon.init api (some (PyVal.str (stripChars l "TAX-")))
              Option.none Option.none Option.none Option.none with
          | .built taxon => some (l, taxon)
          | _ => Option.none)) := by
  induction labels with
  | nil => rfl
  | cons a rest ih =>
    have ha := h a (by simp)
    have hrest : ∀ l ∈ rest,
        Taxon.init api (some (PyVal.str (stripChars l "TAX-"))) Option.none
            Option.none Option.none Option.none ≠ InitResult.invalidInput :=
      fun l hl => h l (by simp [hl])
    unfold turn_taxa_into_taxonomic_info
    cases hinit : Taxon.init api (some (PyVal.str (stripChars a "TAX-")))
        Option.none Option.none Option.none Option.none with
    | built taxon => simp [ih hrest, hinit, Except.map]
    | notFound x => simp [ih hrest, hinit]
    | invalidInput => exact absurd hinit ha

/-- A directory with exactly one record, for taxid "2". -/
def apiOnly2 : EntrezApi :=
  { efetch := fun v =>
      if v = PyVal.str "2" then
        some { scientificName := PyVal.str "Bacteria",
               lineage := "cellular organisms",
               parentTaxId := PyVal.str "131567",
               lineageEx := some [PyVal.str "131567"] }
      else Option.none,
    esearch := fun _ => Option.none }

/-- C5 witness: of two labels, "TAX-2" resolves and "TAX-999" fails with
`TaxonNotFound`; the run completes with exactly the successful entry. -/
theorem C5_notfound_skipped_witness :
    turn_taxa_into_taxonomic_info apiOnly2 ["TAX-2", "TAX-999"]
      = Except.ok (["TAX-2", "TAX-999"].filterMap (fun l =>
          match Taxon.init apiOnly2 (some (PyVal.str (stripChars l "TAX-")))
              Option.none Option.none Option.none Option.none with
          | .built taxon => some (l, taxon)
          | _ => Option.none)) :=
  C5_notfound_skipped apiOnly2 ["TAX-2", "TAX-999"] (by decide)

/-! C4: what the label "stripping" actually does. -/

/-- A directory that resolves every identifier to the same record. -/
def apiAny : EntrezApi :=
  { efetch := fun _ =>
      some { scientificName := PyVal.str "S", lineage := "A",
             parentTaxId := PyVal.str "0", lineageEx := Option.none },
    esearch := fun _ => Option.none }

/-- C4 counterexample: the label "TAX-X12" carries the conventional
prefix tag "TAX-" before the raw value "X12", yet the identifier the
engine resolves (visible as the taxid of the stored record) is "12":
Python's `strip('TAX-')` removes the character SET T, A, X, - from both
ends, not the prefix substring. -/
theorem C4_strip_counterexample :
    "TAX-" ++ "X12" = "TAX-X12" ∧
    stripChars "TAX-X12" "TAX-" ≠ "X12" ∧
    turn_taxa_into_taxonomic_info apiAny ["TAX-X12"]
      = Except.ok [("TAX-X12",
          { taxid := PyVal.str "12", scientific_name := PyVal.str "S",
            lineage_taxa_name := [PyVal.str "A", PyVal.str "S"],
            lineage_taxa_id := [PyVal.str "12"],
            parent_taxid := PyVal.str "0", dist_to_root := some 1 })] := by
  refine ⟨rfl, by decide, ?_⟩
  rfl

lemma string_mk_toList (s : String) : String.mk s.toList = s := by
  cases s
  rfl

/-- C4 (amended): the engine removes all leading and trailing characters
drawn from the set T, A, X, - of the tag (Python `strip` semantics); for
a label that is the tag "TAX-" followed by a raw identifier that neither
begins nor ends with a character of that set, this coincides with
removing the tag, the raw identifier is what gets resolved, and the
unmodified label is the key of the resulting mapping. -/
theorem C4_strip_amended (api : EntrezApi) (s : String) (hne : s ≠ "")
    (hh : ∀ c, s.toList.head? = some c → "TAX-".toList.contains c = false)
    (hl : ∀ c, s.toList.getLast? = some c → "TAX-".toList.contains c = false) :
    stripChars ("TAX-" ++ s) "TAX-" = s ∧
    turn_taxa_into_taxonomic_info api ["TAX-" ++ s]
      = match Taxon.init api (some (PyVal.str s)) Option.none Option.none
            Option.none Option.none with
        | .built taxon => Except.ok [("TAX-" ++ s, taxon)]
        | .notFound _ => Except.ok []
        | .invalidInput => Except.error PyErr.invalidInput := by
  have hstrip : stripChars ("TAX-" ++ s) "TAX-" = s := by
    unfold stripChars
    have htl : ("TAX-" ++ s).toList
        = 'T' :: 'A' :: 'X' :: '-' :: s.toList := rfl
    rw [htl]
    cases hs : s.toList with
    | nil =>
      have hsnil : s = "" := by
        have h0 := congrArg String.mk hs
        rwa [string_mk_toList] at h0
      exact absurd hsnil hne
    | cons c cs =>
      have hc : "TAX-".toList.contains c = false := hh c (by rw [hs]; rfl)
      have h1 : List.dropWhile (fun x => "TAX-".toList.contains x)
          ('T' :: 'A' :: 'X' :: '-' :: c :: cs) = c :: cs := by
        rw [List.dropWhile_cons, if_pos (by decide), List.dropWhile_cons,
          if_pos (by decide), List.dropWhile_cons, if_pos (by decide),
          List.dropWhile_cons, if_pos (by decide), List.dropWhile_cons,
          if_neg (by simpa using hc)]
      rw [h1]
      cases hrev : (c :: cs).reverse with
      | nil => exact absurd hrev (by simp)
      | cons d ds =>
        have hd : "TAX-".toList.contains d = false := by
          apply hl
          rw [hs, ← List.head?_reverse, hrev]
          rfl
        have h2 : List.dropWhile (fun x => "TAX-".toList.contains x)
            (d :: ds) = d :: ds := by
          rw [List.dropWhile_cons, if_neg (by simpa using hd)]
        rw [h2, ← hrev, List.reverse_reverse, ← hs, string_mk_toList]
  refine ⟨hstrip, ?_⟩
  cases hinit : Taxon.init api (some (PyVal.str s)) Option.none Option.none
      Option.none Option.none with
  | built taxon =>
    simp only [turn_taxa_into_taxonomic_info, hstrip, hinit, Except.map]
  | notFound x =>
    simp only [turn_taxa_into_taxonomic_info, hstrip, hinit]
  | invalidInput =>
    simp only [turn_taxa_into_taxonomic_info, hstrip, hinit]

/-- C4 witness: the amended statement at the conventional label
"TAX-" ++ "2" against the one-record directory. -/
theorem C4_strip_amended_witness :
    stripChars ("TAX-" ++ "2") "TAX-" = "2" ∧
    turn_taxa_into_taxonomic_info apiOnly2 ["TAX-" ++ "2"]
      = match Taxon.init apiOnly2 (some (PyVal.str "2")) Option.none
            Option.none Option.none Option.none with
        | .built taxon => Except.ok [("TAX-" ++ "2", taxon)]
        | .notFound _ => Except.ok []
        | .invalidInput => Except.error PyErr.invalidInput :=
  C4_strip_amended apiOnly2 "2" (by decide) (by decide) (by decide)

/-! Persistence: `write_json` / `read_json` (`dist_pwy_rxn.py` 89-118). -/

/-- The JSON object `MyEncoder` produces from a full-field Taxon's
`__dict__`: its five attributes, by name. -/
structure TaxonDict where
  taxid : PyVal
  scientific_name : PyVal
  lineage_taxa_name : List PyVal
  lineage_taxa_id : List PyVal
  parent_taxid : PyVal
deriving DecidableEq

/-- `write_json` (lines 89-98): serialise each Taxon's attributes by
name.  JSON maps are modelled as association lists in key order. -/
def write_json (data : List (String × Taxon)) : List (String × TaxonDict) :=
  data.map (fun p =>
    (p.1, { taxid := p.2.taxid, scientific_name := p.2.scientific_name,
            lineage_taxa_name := p.2.lineage_taxa_name,
            lineage_taxa_id := p.2.lineage_taxa_id,
            parent_taxid := p.2.parent_taxid }))

/-- `read_json` (lines 100-118): rebuild each Taxon through the
constructor.  Line 116 of the source passes
`data[elem]["lineage_taxa_name"]` — the NAME list — as the
`lineage_taxa_id` argument, which this embedding reproduces verbatim.
An exception from the constructor escapes `read_json`. -/
def read_json (api : EntrezApi) (data : List (String × TaxonDict)) :
    Except PyErr (List (String × Taxon)) :=
  match data with
  | [] => Except.ok []
  | (elem, d) :: rest =>
    match Taxon.init api (some d.taxid) (some d.scientific_name)
        (some d.lineage_taxa_name) (some d.lineage_taxa_name)
        (some d.parent_taxid) with
    | .built taxon => (read_json api rest).map (fun m => (elem, taxon) :: m)
    | .invalidInput => Except.error PyErr.invalidInput
    | .notFound x => Except.error (PyErr.notFound x)

/-! C1: the save/load round trip. -/

/-- C1: the round trip fails.  Saving the one-entry map with the
fully-populated record `taxonQ` and loading it back yields a record
whose `lineage_taxa_id` is the NAME list `["cellular organisms",
"Bacteria"]` instead of `["131567", "2"]`: `read_json` rebuilds
`lineage_taxa_id` from the persisted `lineage_taxa_name` field, so
`load(save(M)) ≠ M`. -/
theorem C1_roundtrip_code_bug :
    read_json apiEmpty (write_json [("TAX-2", taxonQ)])
      = Except.ok [("TAX-2",
          { taxid := PyVal.str "2", scientific_name := PyVal.str "Bacteria",
            lineage_taxa_name :=
              [PyVal.str "cellular organisms", PyVal.str "Bacteria"],
            lineage_taxa_id :=
              [PyVal.str "cellular organisms", PyVal.str "Bacteria"],
            parent_taxid := PyVal.str "131567",
            dist_to_root := Option.none })] ∧
    read_json apiEmpty (write_json [("TAX-2", taxonQ)])
      ≠ Except.ok [("TAX-2", taxonQ)] := by
  constructor
  · rfl
  · decide

/-! Aggregation: `associate_rxn_dist` (`dist_pwy_rxn.py` 143-168). -/

/-- Python `taxdistdata[txn]` on the distance dict (`Option.none` models
`KeyError`). -/
def alookup (m : List (String × Int)) (k : String) : Option Int :=
  (m.find? (fun p => p.1 = k)).map (fun p => p.2)

/-- The list comprehension of line 156: collects every candidate's
distance in one pass, aborted whole by the first `KeyError`. -/
def lookup_all (m : List (String × Int)) : List String → Option (List Int)
  | [] => some []
  | t :: ts =>
    match alookup m t with
    | Option.none => Option.none
    | some d => (lookup_all m ts).map (fun l => d :: l)

/-- The fallback loop of lines 158-163: collects candidates one by one,
skipping each `KeyError`. -/
def lookup_present (m : List (String × Int)) : List String → List Int
  | [] => []
  | t :: ts =>
    match alookup m t with
    | Option.none => lookup_present m ts
    | some d => d :: lookup_present m ts

/-- `associate_rxn_dist`: per reaction, try the one-pass comprehension,
fall back to the skipping loop on a `KeyError`, then `min` of the
collected list, with 1000 when `min` raises `ValueError` on an empty
list. -/
def associate_rxn_dist (rxndata : List (String × List String))
    (taxdistdata : List (String × Int)) : List (String × Int) :=
  rxndata.map (fun p =>
    let rxn_dist :=
      match lookup_all taxdistdata p.2 with
      | some l => l
      | Option.none => lookup_present taxdistdata p.2
    (p.1, match rxn_dist.min? with
          | some m => m
          | Option.none => 1000))

/-- Modelled from the spec's description of the aggregation ("the
minimum over the candidates present in the taxon-distance mapping"), to
be compared with `associate_rxn_dist` for the refinement claim C9. -/
def aggregate_min_present (rxndata : List (String × List String))
    (taxdistdata : List (String × Int)) : List (String × Int) :=
  rxndata.map (fun p =>
    (p.1, match (lookup_present taxdistdata p.2).min? with
          | some m => m
          | Option.none => 1000))

lemma lookup_all_eq_present (m : List (String × Int)) (ts : List String)
    (l : List Int) (h : lookup_all m ts = some l) :
    l = lookup_present m ts := by
  induction ts generalizing l with
  | nil =>
    simp [lookup_all] at h
    simp [lookup_present, ← h]
  | cons t ts ih =>
    unfold lookup_all at h
    unfold lookup_present
    cases ha : alookup m t with
    | none => rw [ha] at h; exact absurd h (by simp)
    | some d =>
      rw [ha] at h
      cases hrec : lookup_all m ts with
      | none => rw [hrec] at h; exact absurd h (by simp)
      | some l0 =>
        rw [hrec] at h
        simp at h
        subst h
        simp [ih l0 hrec]

/-! C9: the two collection paths agree. -/

/-- C9: the fast one-pass collection and the skipping fallback produce
the same aggregate: `associate_rxn_dist` equals taking, per reaction,
the minimum over the candidates present in the distance mapping (1000
when none is present). -/
theorem C9_fast_and_fallback_agree (rxndata : List (String × List String))
    (taxdistdata : List (String × Int)) :
    associate_rxn_dist rxndata taxdistdata
      = aggregate_min_present rxndata taxdistdata := by
  unfold associate_rxn_dist aggregate_min_present
  apply List.map_congr_left
  intro p _
  cases hall : lookup_all taxdistdata p.2 with
  | none => simp
  | some l => simp [lookup_all_eq_present taxdistdata p.2 l hall]

/-! C3: per-reaction aggregate value. -/

/-- C3: every reaction of the input is mapped to the minimum of the
distances of its candidates that are present in the distance mapping,
absent candidates silently skipped, and to the sentinel 1000 when no
candidate is present. -/
theorem C3_reaction_min_distance (rxndata : List (String × List String))
    (taxdistdata : List (String × Int)) (rxn : String) (txns : List String)
    (h : (rxn, txns) ∈ rxndata) :
    (rxn, match (lookup_present taxdistdata txns).min? with
          | some m => m
          | Option.none => 1000) ∈ associate_rxn_dist rxndata taxdistdata := by
  have hmem := List.mem_map_of_mem
    (f := fun p : String × List String =>
      ((p.1 : String), match (lookup_present taxdistdata p.2).min? with
            | some m => m
            | Option.none => (1000 : Int))) h
  unfold associate_rxn_dist
  have hagree : ∀ p : String × List String,
      (let rxn_dist :=
        match lookup_all taxdistdata p.2 with
        | some l => l
        | Option.none => lookup_present taxdistdata p.2
       ((p.1 : String), match rxn_dist.min? with
        | some m => m
        | Option.none => (1000 : Int)))
      = ((p.1 : String),
          match (lookup_present taxdistdata p.2).min? with
          | some m => m
          | Option.none => (1000 : Int)) := by
    intro p
    cases hall : lookup_all taxdistdata p.2 with
    | none => simp
    | some l => simp [lookup_all_eq_present taxdistdata p.2 l hall]
  rw [List.map_congr_left (fun p _ => hagree p)]
  exact hmem

/-- C3 witness: candidates resolving to distances 5, 2, 9 yield 2, and a
reaction none of whose candidates resolve yields the sentinel 1000. -/
theorem C3_reaction_min_distance_witness :
    ("R1", (2 : Int)) ∈ associate_rxn_dist [("R1", ["a", "b", "c"])]
        [("a", 5), ("b", 2), ("c", 9)] ∧
    ("R0", (1000 : Int)) ∈ associate_rxn_dist [("R0", ["z"])] [] :=
  ⟨C3_reaction_min_distance [("R1", ["a", "b", "c"])]
      [("a", 5), ("b", 2), ("c", 9)] "R1" ["a", "b", "c"] (by decide),
   C3_reaction_min_distance [("R0", ["z"])] [] "R0" ["z"] (by decide)⟩

end TaxoDist
